import Mathlib

/-!
Verification model of the `bybit_webhook_orders` repository.

The repository is a thin FastAPI service (`app.py`, plus an older variant
`main.py`) that validates incoming order requests and forwards them through
`bybit_client.py` (`BybitClient`) to the Bybit exchange SDK.

Embedding conventions:
* Python floats are modelled as `ℚ` (the arithmetic in the source is plain
  `+ - *` on request-supplied numbers; rounding behaviour is never branched on).
* Exchange-bound numeric fields that the source renders with `str(...)` are
  kept as `ℚ` values in the parameter lists (`str` is injective on numbers, so
  nothing claimed here depends on the rendering).
* The exchange SDK (`pybit.unified_trading.HTTP`) is an oracle `ExchangeEnv`:
  each SDK method's reply is a function of the request supplied by the
  environment.  Every SDK call a client method issues is recorded in a trace
  (`List ExchangeCall`).
* Python exceptions are the inductive `PyErr`; `ValueError` is distinguished
  because the endpoints dispatch on it (`except ValueError` / `except
  Exception`).  Message strings built by f-string wrapping are kept structured
  (`Msg.wrap`) so that wrapping is visible.
-/

namespace Bybit

/-- Python-level JSON/scalar values appearing in request payloads and in the
keyword-argument dictionaries sent to the exchange SDK. -/
inductive PyVal where
  | str (s : String)
  | num (q : ℚ)
  | bool (b : Bool)
  | null
deriving DecidableEq

/-- Exception message, kept structured: `raw` is a literal message, `wrap`
models the pervasive `f"Some context: {str(e)}"` re-wrapping, and `minQty`
models the f-string of `bybit_client.py` lines 73-76, which interpolates the
offending quantity, the minimum quantity and the symbol. -/
inductive Msg where
  | raw (s : String)
  | wrap (pre : String) (m : Msg)
  | minQty (qty minQty : ℚ) (symbol : String)
deriving DecidableEq

/-- Python exception classes that the endpoints distinguish:
`ValueError` (and its subclass `pydantic.ValidationError`), `TypeError`
(raised by a call with unexpected keyword arguments), and everything else
(`Exception(...)` re-raises in `bybit_client.py`). -/
inductive PyErr where
  | valueError (m : Msg)
  | typeError (m : Msg)
  | exception (m : Msg)
deriving DecidableEq

instance {ε α : Type} [DecidableEq ε] [DecidableEq α] : DecidableEq (Except ε α) := fun x y =>
  match x, y with
  | .ok a, .ok b => if h : a = b then .isTrue (by rw [h]) else .isFalse (by simp [h])
  | .error a, .error b => if h : a = b then .isTrue (by rw [h]) else .isFalse (by simp [h])
  | .ok _, .error _ => .isFalse (by simp)
  | .error _, .ok _ => .isFalse (by simp)

/-- Model of `isinstance(e, ValueError)` — what an `except ValueError` clause catches. -/
def PyErr.isValueError : PyErr → Bool
  | .valueError _ => true
  | _ => false

/-- Model of `str(e)`: the message carried by the exception. -/
def PyErr.msg : PyErr → Msg
  | .valueError m => m
  | .typeError m => m
  | .exception m => m

/-- Model of Python `str.lower()` (ASCII range, which covers every string the
source compares after lowering). -/
def pyLower (s : String) : String :=
  String.mk (s.data.map Char.toLower)

/-- Model of Python `str.strip()`: drop whitespace from both ends. -/
def pyStrip (s : String) : String :=
  String.mk (((s.data.dropWhile Char.isWhitespace).reverse.dropWhile Char.isWhitespace).reverse)

/-- Test `needle in hay` on lists of characters. -/
def listContainsSub (needle hay : List Char) : Bool :=
  hay.tails.any (fun t => needle.isPrefixOf t)

/-- Python `needle in hay` substring test on strings. -/
def strContainsSub (hay needle : String) : Bool :=
  listContainsSub needle.data hay.data

/-- Numeric value of a digit string (most significant first). -/
def digitsVal (cs : List Char) : ℕ :=
  cs.foldl (fun a c => a * 10 + (c.toNat - 48)) 0

/-- Split a leading run of digits off a character list. -/
def takeDigits (cs : List Char) : List Char × List Char :=
  (cs.takeWhile Char.isDigit, cs.dropWhile Char.isDigit)

/-- Consume an optional sign; returns `(isNegative, rest)`. -/
def parseSign : List Char → Bool × List Char
  | '-' :: r => (true, r)
  | '+' :: r => (false, r)
  | cs => (false, cs)

/-- Unsigned decimal mantissa: `digits`, `digits.digits?` or `.digits`. -/
def parseUnsigned (cs : List Char) : Option (ℚ × List Char) :=
  let (ip, rest) := takeDigits cs
  match rest with
  | '.' :: rest2 =>
      let (fp, rest3) := takeDigits rest2
      if ip.isEmpty && fp.isEmpty then none
      else some ((digitsVal ip : ℚ) + (digitsVal fp : ℚ) / (10 ^ fp.length), rest3)
  | _ => if ip.isEmpty then none else some ((digitsVal ip : ℚ), rest)

/-- Model of Python `float(s)` on strings: optional surrounding whitespace,
optional sign, decimal mantissa, optional exponent.  (The special forms
`inf`/`nan` and digit underscores are omitted; nothing in the repository or
the claims involves them.)  Returns `none` where `float(s)` raises
`ValueError`. -/
def pyFloatOfString? (s : String) : Option ℚ :=
  let cs := (pyStrip s).data
  let (neg, cs1) := parseSign cs
  match parseUnsigned cs1 with
  | none => none
  | some (m, rest) =>
    match rest with
    | [] => some (if neg then -m else m)
    | c :: r2 =>
      if c = 'e' ∨ c = 'E' then
        let (eneg, r3) := parseSign r2
        let (ds, r4) := takeDigits r3
        if ds.isEmpty ∨ ¬ r4.isEmpty then none
        else
          let mag := m * (if eneg then (1 : ℚ) / 10 ^ digitsVal ds else 10 ^ digitsVal ds)
          some (if neg then -mag else mag)
      else none

/-- Model of Python `int(s)` on strings: optional whitespace, optional sign,
digits only (underscores omitted). -/
def pyIntOfString? (s : String) : Option ℤ :=
  let cs := (pyStrip s).data
  let (neg, cs1) := parseSign cs
  if cs1.isEmpty ∨ ¬ cs1.all Char.isDigit then none
  else some ((if neg then -1 else 1) * (digitsVal cs1 : ℤ))

/-- Python `int(float)` truncates toward zero. -/
def ratTrunc (q : ℚ) : ℤ :=
  if 0 ≤ q then ⌊q⌋ else -⌊-q⌋

/-- Model of Python `float(v)` applied to a request value (also the essence of
pydantic v1's coercion to a `float` field): numbers pass through, strings go
through `float(s)`, bools are 1/0, `None` raises. -/
def pyFloat : PyVal → Except Msg ℚ
  | .num q => .ok q
  | .bool b => .ok (if b then 1 else 0)
  | .str s =>
    match pyFloatOfString? s with
    | some q => .ok q
    | none => .error (.raw ("could not convert string to float: " ++ s))
  | .null => .error (.raw "float() argument must not be None")

/-- Model of Python `int(v)` / pydantic coercion to an `int` field. -/
def pyInt : PyVal → Except Msg ℤ
  | .num q => .ok (ratTrunc q)
  | .bool b => .ok (if b then 1 else 0)
  | .str s =>
    match pyIntOfString? s with
    | some n => .ok n
    | none => .error (.raw ("invalid literal for int: " ++ s))
  | .null => .error (.raw "int() argument must not be None")

/-- Type `OrderSide = Literal["Buy", "Sell"]` (bybit_client.py line 6). -/
inductive OrderSide where
  | Buy
  | Sell
deriving DecidableEq

/-- The literal string value an `OrderSide` stands for at runtime. -/
def OrderSide.str : OrderSide → String
  | .Buy => "Buy"
  | .Sell => "Sell"

/-- Type `OrderType = Literal["Market", "Limit"]` (bybit_client.py line 5). -/
inductive OrderType where
  | Market
  | Limit
deriving DecidableEq

/-- The literal string value an `OrderType` stands for at runtime. -/
def OrderType.str : OrderType → String
  | .Market => "Market"
  | .Limit => "Limit"

/-- Function `compute_tp_sl_from_price` (app.py lines 88-110), translated clause by
clause: initialise both results to `None`, then branch on the lowered side and
conditionally assign from the percentages. -/
def compute_tp_sl_from_price (base_price : ℚ) (side : String)
    (sl_pct tp_pct : Option ℚ) : Option ℚ × Option ℚ :=
  let stop_loss : Option ℚ := none
  let take_profit : Option ℚ := none
  if pyLower side = "buy" then
    let stop_loss := match sl_pct with
      | some s => some (base_price * (1 - s))
      | none => stop_loss
    let take_profit := match tp_pct with
      | some t => some (base_price * (1 + t))
      | none => take_profit
    (stop_loss, take_profit)
  else if pyLower side = "sell" then
    let stop_loss := match sl_pct with
      | some s => some (base_price * (1 + s))
      | none => stop_loss
    let take_profit := match tp_pct with
      | some t => some (base_price * (1 - t))
      | none => take_profit
    (stop_loss, take_profit)
  else (stop_loss, take_profit)

/-! ## The `OrderRequest` pydantic model of app.py (lines 31-86)

A decoded JSON request body is a `Payload`: an association list of top-level
keys (JSON objects have unique keys; lookup takes the first occurrence).
`extra = "allow"` fields are irrelevant to every modelled behaviour, so the
parsed `OrderRequest` keeps only the declared fields. -/

/-- A decoded JSON object, as handed to pydantic. -/
def Payload := List (String × PyVal)

instance : DecidableEq Payload := by
  unfold Payload
  infer_instance

/-- The parsed request object (declared fields of `OrderRequest`, app.py
lines 31-44). -/
structure OrderRequest where
  symbol : String
  side : OrderSide
  order_type : OrderType
  quantity : ℚ
  price : Option ℚ
  leverage : ℤ
  reduce_only : Bool
  stop_loss : Option ℚ
  take_profit : Option ℚ
  stop_loss_pct : Option ℚ
  take_profit_pct : Option ℚ
  is_leverage : Option ℤ
deriving DecidableEq

/-- Validator `OrderRequest.populate_quantity` (app.py lines 50-58), the
`root_validator(pre=True)`: if only `qty` is supplied, assign
`float(values["qty"])` to `quantity`.  (Dictionary assignment is modelled by
prepending, which shadows for lookup; `quantity` is absent when it fires.)
A `float()` failure inside the validator surfaces as a validation error. -/
def populate_quantity (values : Payload) : Except Msg Payload :=
  if (List.lookup "qty" values).isSome && !(List.lookup "quantity" values).isSome then
    match List.lookup "qty" values with
    | some v =>
      match pyFloat v with
      | .ok q => .ok (("quantity", PyVal.num q) :: values)
      | .error m => .error m
    | none => .ok values
  else .ok values

/-- Validator `OrderRequest.parse_price` (app.py lines 60-75), the `pre=True, always=True`
validator on `price`: `None` passes, a string is converted with `float` and on
failure the placeholder `{{close}}` (after `strip()`) becomes `None` while any
other unconvertible string raises; non-strings pass through (their numeric
coercion is applied afterwards by the field's own validation). -/
def parse_price : PyVal → Except Msg (Option ℚ)
  | .null => .ok none
  | .str s =>
    match pyFloatOfString? s with
    | some q => .ok (some q)
    | none =>
      if pyStrip s = "\x7b\x7bclose\x7d\x7d" then .ok none
      else .error (.raw "price must be a valid number")
  | .num q => .ok (some q)
  | .bool b => .ok (some (if b then 1 else 0))

/-- Validator `OrderRequest.parse_pct` (app.py lines 77-86), the validator shared by
`stop_loss_pct` and `take_profit_pct`. -/
def parse_pct : PyVal → Except Msg (Option ℚ)
  | .null => .ok none
  | .str s =>
    match pyFloatOfString? s with
    | some q => .ok (some q)
    | none => .error (.raw "Percentage fields must be valid numbers")
  | .num q => .ok (some q)
  | .bool b => .ok (some (if b then 1 else 0))

/-- Required `str` field. -/
def fieldStr (values : Payload) (key : String) : Except Msg String :=
  match List.lookup key values with
  | none => .error (.raw ("field required: " ++ key))
  | some (.str s) => .ok s
  | some _ => .error (.raw ("str type expected: " ++ key))

/-- Required `Literal["Buy", "Sell"]` field. -/
def fieldSide (values : Payload) : Except Msg OrderSide :=
  match List.lookup "side" values with
  | none => .error (.raw "field required: side")
  | some (.str "Buy") => .ok OrderSide.Buy
  | some (.str "Sell") => .ok OrderSide.Sell
  | some _ => .error (.raw "side must be one of: Buy, Sell")

/-- Required `Literal["Market", "Limit"]` field. -/
def fieldOrderType (values : Payload) : Except Msg OrderType :=
  match List.lookup "order_type" values with
  | none => .error (.raw "field required: order_type")
  | some (.str "Market") => .ok OrderType.Market
  | some (.str "Limit") => .ok OrderType.Limit
  | some _ => .error (.raw "order_type must be one of: Market, Limit")

/-- Field `quantity: float = Field(..., gt=0)`. -/
def fieldQuantity (values : Payload) : Except Msg ℚ := do
  match List.lookup "quantity" values with
  | none => .error (.raw "field required: quantity")
  | some v =>
    let q ← pyFloat v
    if 0 < q then .ok q
    else .error (.raw "ensure this value is greater than 0: quantity")

/-- Field `price: Optional[float] = Field(None, gt=0)` with the `parse_price`
validator applied first (pre validators run before the constraint check). -/
def fieldPrice (values : Payload) : Except Msg (Option ℚ) := do
  match List.lookup "price" values with
  | none => .ok none
  | some v =>
    let pv ← parse_price v
    match pv with
    | none => .ok none
    | some q =>
      if 0 < q then .ok (some q)
      else .error (.raw "ensure this value is greater than 0: price")

/-- Field `leverage: int = Field(1, ge=1, le=100)`. -/
def fieldLeverage (values : Payload) : Except Msg ℤ := do
  match List.lookup "leverage" values with
  | none => .ok 1
  | some v =>
    let n ← pyInt v
    if 1 ≤ n ∧ n ≤ 100 then .ok n
    else .error (.raw "leverage must be between 1 and 100")

/-- Field `reduce_only: bool = Field(False)`.  (pydantic's string spellings of
booleans are omitted; no claim involves them.) -/
def fieldReduceOnly (values : Payload) : Except Msg Bool :=
  match List.lookup "reduce_only" values with
  | none => .ok false
  | some (.bool b) => .ok b
  | some (.num 1) => .ok true
  | some (.num 0) => .ok false
  | some _ => .error (.raw "value could not be parsed to a boolean: reduce_only")

/-- An `Optional[float]` field with no constraint (`stop_loss`, `take_profit`). -/
def fieldOptFloat (values : Payload) (key : String) : Except Msg (Option ℚ) := do
  match List.lookup key values with
  | none => .ok none
  | some .null => .ok none
  | some v =>
    let q ← pyFloat v
    .ok (some q)

/-- An `Optional[float]` percentage field with the `parse_pct` validator
(`stop_loss_pct`, `take_profit_pct`). -/
def fieldPct (values : Payload) (key : String) : Except Msg (Option ℚ) := do
  match List.lookup key values with
  | none => .ok none
  | some v => parse_pct v

/-- Field `is_leverage: Optional[int] = Field(0)`. -/
def fieldIsLeverage (values : Payload) : Except Msg (Option ℤ) := do
  match List.lookup "is_leverage" values with
  | none => .ok (some 0)
  | some .null => .ok none
  | some v =>
    let n ← pyInt v
    .ok (some n)

/-- Field validation of `OrderRequest` after the pre root validator, in the
declaration order of app.py lines 32-44.  (pydantic collects all field errors;
this model reports the first, which does not affect whether validation
succeeds or the value it produces.) -/
def parseFields (values : Payload) : Except Msg OrderRequest := do
  let symbol ← fieldStr values "symbol"
  let side ← fieldSide values
  let order_type ← fieldOrderType values
  let quantity ← fieldQuantity values
  let price ← fieldPrice values
  let leverage ← fieldLeverage values
  let reduce_only ← fieldReduceOnly values
  let stop_loss ← fieldOptFloat values "stop_loss"
  let take_profit ← fieldOptFloat values "take_profit"
  let stop_loss_pct ← fieldPct values "stop_loss_pct"
  let take_profit_pct ← fieldPct values "take_profit_pct"
  let is_leverage ← fieldIsLeverage values
  .ok ⟨symbol, side, order_type, quantity, price, leverage, reduce_only,
      stop_loss, take_profit, stop_loss_pct, take_profit_pct, is_leverage⟩

/-- Validation of a decoded request body into an `OrderRequest`
(pydantic: pre root validator, then field validation).  An error is a
`pydantic.ValidationError`, which is a subclass of `ValueError`. -/
def parseOrderRequest (payload : Payload) : Except Msg OrderRequest := do
  let values ← populate_quantity payload
  parseFields values

/-! ## The exchange SDK boundary (`bybit_client.py`) -/

/-- One instrument entry of a `get_instruments_info` reply.  The source reads
only `minOrderQty` (with `.get(..., "0")` and a `float(...)` conversion); the
numeric value the exchange sent is modelled directly. -/
structure SymbolInfo where
  minOrderQty : Option ℚ
deriving DecidableEq

/-- One position entry of a `get_positions` reply.  The source reads
`position["side"]` and `float(position.get("size", "0"))`. -/
structure Position where
  side : String
  size : ℚ
deriving DecidableEq

/-- A call issued to the exchange SDK (`self.client.<method>` in
`bybit_client.py`), with the arguments the source passes.  The two integer
leverages are passed as `str(leverage)` in the source. -/
inductive ExchangeCall where
  | getInstrumentsInfo (category symbol : String)
  | setLeverage (category symbol : String) (buyLeverage sellLeverage : ℤ)
  | order (params : List (String × PyVal))
  | getPositions (category symbol : String)
  | cancelOrder (category symbol orderId : String)
  | cancelAllOrders (category symbol : String)
  | getWalletBalance (accountType : String)
deriving DecidableEq

/-- The exchange, as an oracle: for each SDK method, the reply the exchange
would give to a request.  `.error s` is the SDK raising an exception whose
`str()` is `s`; successful response payloads are uninterpreted strings. -/
structure ExchangeEnv where
  instruments : String → Except String (List SymbolInfo)
  setLeverageResult : String → ℤ → Except String Unit
  orderResult : List (String × PyVal) → Except String String
  positionsResult : String → Except String (List Position)
  cancelResult : String → String → Except String String
  cancelAllResult : String → Except String String
  walletResult : Except String String

/-- Method `BybitClient.set_leverage` (bybit_client.py lines 17-35): call the SDK
with `buyLeverage = sellLeverage = str(leverage)`; an exchange error whose
lowered text contains `"leverage not modified"` is ignored, any other error is
re-raised as `Exception(f"Failed to set leverage: ...")`.  Returns the outcome
and the SDK calls issued. -/
def set_leverage (env : ExchangeEnv) (symbol : String) (leverage : ℤ) :
    Except PyErr Unit × List ExchangeCall :=
  (match env.setLeverageResult symbol leverage with
    | .ok _ => .ok ()
    | .error e =>
      if strContainsSub (pyLower e) "leverage not modified" then .ok ()
      else .error (.exception (.wrap "Failed to set leverage: " (.raw e))),
   [.setLeverage "linear" symbol leverage leverage])

/-- Method `BybitClient.place_order` (bybit_client.py lines 58-116).  Inlines
`get_symbol_info` (lines 37-56): that helper wraps every failure — including
its own `ValueError` for a missing symbol — into
`Exception(f"Failed to get symbol info: ...")`, and it is called *before* the
`try` of `place_order`, so its exception propagates unchanged.  The
minimum-quantity `ValueError` is likewise raised before the `try`.  Everything
raised inside the `try` (a failing `set_leverage`, the missing limit price,
an exchange rejection) is re-raised as
`Exception(f"Failed to place order: ...")`. -/
def place_order (env : ExchangeEnv) (symbol side order_type : String) (qty : ℚ)
    (leverage : ℤ) (price : Option ℚ) (reduce_only : Bool) :
    Except PyErr String × List ExchangeCall :=
  let t0 : List ExchangeCall := [.getInstrumentsInfo "linear" symbol]
  match env.instruments symbol with
  | .error e =>
    (.error (.exception (.wrap "Failed to get symbol info: " (.raw e))), t0)
  | .ok [] =>
    (.error (.exception (.wrap "Failed to get symbol info: "
        (.raw ("Symbol " ++ symbol ++ " not found")))), t0)
  | .ok (info :: _) =>
    let min_qty := info.minOrderQty.getD 0
    if qty < min_qty then
      (.error (.valueError (.minQty qty min_qty symbol)), t0)
    else
      let lev := set_leverage env symbol leverage
      let t1 := t0 ++ lev.2
      match lev.1 with
      | .error e =>
        (.error (.exception (.wrap "Failed to place order: " e.msg)), t1)
      | .ok _ =>
        let baseParams : List (String × PyVal) :=
          [("category", .str "linear"), ("symbol", .str symbol),
           ("side", .str side), ("orderType", .str order_type),
           ("qty", .num qty), ("positionIdx", .num 0),
           ("reduceOnly", .bool reduce_only)]
        let send := fun (params : List (String × PyVal)) =>
          (match env.orderResult params with
            | .ok r => (Except.ok r, t1 ++ [ExchangeCall.order params])
            | .error e =>
              (Except.error (PyErr.exception (.wrap "Failed to place order: " (.raw e))),
               t1 ++ [ExchangeCall.order params]))
        if order_type = "Limit" then
          match price with
          | none =>
            (.error (.exception (.wrap "Failed to place order: "
                (.raw "Limit order requires a price"))), t1)
          | some p => send (baseParams ++ [("price", .num p)])
        else send baseParams

/-- Method `BybitClient.get_position` (bybit_client.py lines 226-245): an empty
`result.list` becomes `None`, otherwise the first entry is returned; SDK
failures are wrapped into `Exception(f"Failed to get position: ...")`. -/
def get_position (env : ExchangeEnv) (symbol : String) :
    Except PyErr (Option Position) × List ExchangeCall :=
  (match env.positionsResult symbol with
    | .error e => .error (.exception (.wrap "Failed to get position: " (.raw e)))
    | .ok [] => .ok none
    | .ok (p :: _) => .ok (some p),
   [.getPositions "linear" symbol])

/-- Method `BybitClient.close_position` (bybit_client.py lines 247-281).  Note the
`raise ValueError(f"No open position for {symbol}")` sits *inside* the `try`,
so the enclosing `except Exception` re-raises it as a plain
`Exception(f"Failed to close position: ...")`. -/
def close_position (env : ExchangeEnv) (symbol : String) :
    Except PyErr String × List ExchangeCall :=
  let pos := get_position env symbol
  match pos.1 with
  | .error e =>
    (.error (.exception (.wrap "Failed to close position: " e.msg)), pos.2)
  | .ok none =>
    (.error (.exception (.wrap "Failed to close position: "
        (.raw ("No open position for " ++ symbol)))), pos.2)
  | .ok (some p) =>
    if p.size = 0 then
      (.error (.exception (.wrap "Failed to close position: "
          (.raw ("No open position for " ++ symbol)))), pos.2)
    else
      let side := if p.side = "Buy" then "Sell" else "Buy"
      let params : List (String × PyVal) :=
        [("category", .str "linear"), ("symbol", .str symbol),
         ("side", .str side), ("orderType", .str "Market"),
         ("qty", .num |p.size|), ("positionIdx", .num 0),
         ("reduceOnly", .bool true)]
      match env.orderResult params with
      | .ok r => (.ok r, pos.2 ++ [.order params])
      | .error e =>
        (.error (.exception (.wrap "Failed to close position: " (.raw e))),
         pos.2 ++ [.order params])

/-- Method `BybitClient.cancel_order` (bybit_client.py lines 186-205). -/
def cancel_order (env : ExchangeEnv) (order_id symbol : String) :
    Except PyErr String × List ExchangeCall :=
  (match env.cancelResult order_id symbol with
    | .ok r => .ok r
    | .error e => .error (.exception (.wrap "Failed to cancel order: " (.raw e))),
   [.cancelOrder "linear" symbol order_id])

/-- Method `BybitClient.cancel_all_orders` (bybit_client.py lines 207-224). -/
def cancel_all_orders (env : ExchangeEnv) (symbol : String) :
    Except PyErr String × List ExchangeCall :=
  (match env.cancelAllResult symbol with
    | .ok r => .ok r
    | .error e => .error (.exception (.wrap "Failed to cancel all orders: " (.raw e))),
   [.cancelAllOrders "linear" symbol])

/-- Method `BybitClient.get_wallet_balance` (bybit_client.py lines 283-293). -/
def get_wallet_balance (env : ExchangeEnv) :
    Except PyErr String × List ExchangeCall :=
  (match env.walletResult with
    | .ok r => .ok r
    | .error e => .error (.exception (.wrap "Failed to get wallet balance: " (.raw e))),
   [.getWalletBalance "UNIFIED"])

/-! ## The endpoints of app.py -/

/-- Result of an endpoint handler: either the `{"status": "success", "data":
result}` body, or the `HTTPException(status_code=..., detail=...)` it raises
(which FastAPI renders as an HTTP error response). -/
inductive EndpointResult (α : Type) where
  | success (data : α)
  | httpError (status : ℕ) (detail : Msg)
deriving DecidableEq

/-- The shared TP/SL derivation step of `create_order` (app.py lines 119-125)
and `webhook_order` (lines 162-168): when a base price is present and an
absolute TP/SL is missing while a percentage is supplied, compute the missing
absolute values; fields already set are left untouched. -/
def deriveTpSl (o : OrderRequest) : OrderRequest :=
  match o.price with
  | none => o
  | some p =>
    if (o.stop_loss.isNone || o.take_profit.isNone)
        && (o.stop_loss_pct.isSome || o.take_profit_pct.isSome) then
      let computed :=
        compute_tp_sl_from_price p (OrderSide.str o.side) o.stop_loss_pct o.take_profit_pct
      { o with
        stop_loss := if o.stop_loss.isNone then computed.1 else o.stop_loss,
        take_profit := if o.take_profit.isNone then computed.2 else o.take_profit }
    else o

/-- The keyword arguments app.py passes to `client.place_order` (lines 128-141
and 171-184): twelve keywords, with the runtime values of the request
fields. -/
structure PlaceOrderKwargs where
  symbol : String
  side : String
  order_type : String
  qty : ℚ
  price : Option ℚ
  leverage : ℤ
  reduce_only : Bool
  stop_loss : Option ℚ
  take_profit : Option ℚ
  stop_loss_pct : Option ℚ
  take_profit_pct : Option ℚ
  is_leverage : Option ℤ
deriving DecidableEq

/-- The parameter names of `BybitClient.place_order` (bybit_client.py lines
58-67): these are the only keywords the function accepts (it has no
`**kwargs`). -/
def place_orderParamNames : List String :=
  ["symbol", "side", "order_type", "qty", "leverage", "price",
   "position_side", "reduce_only"]

/-- The keyword names used at the call sites app.py lines 128-141 and
171-184, in source order. -/
def appCallKeywordNames : List String :=
  ["symbol", "side", "order_type", "qty", "price", "leverage", "reduce_only",
   "stop_loss", "take_profit", "stop_loss_pct", "take_profit_pct",
   "is_leverage"]

/-- Keywords passed by app.py that `place_order` does not declare. -/
def unexpectedKwargs : List String :=
  appCallKeywordNames.filter (fun k => !place_orderParamNames.contains k)

/-- The call `client.place_order(...)` as issued by app.py: Python binds the
keyword arguments against the callee's signature and raises `TypeError` on the
first unexpected keyword, before the body runs. -/
def callPlaceOrderFromApp (env : ExchangeEnv) (kw : PlaceOrderKwargs) :
    Except PyErr String × List ExchangeCall :=
  match unexpectedKwargs with
  | [] => place_order env kw.symbol kw.side kw.order_type kw.qty kw.leverage
      kw.price kw.reduce_only
  | k :: _ =>
    (.error (.typeError (.raw
        ("place_order() got an unexpected keyword argument \x27" ++ k ++ "\x27"))), [])

/-- The keyword arguments built at app.py lines 128-141 (`/order`): the price
is nulled for market orders (`None if order.order_type.lower() == "market"
else order.price`). -/
def appOrderArgs (o : OrderRequest) : PlaceOrderKwargs :=
  ⟨o.symbol, OrderSide.str o.side, OrderType.str o.order_type, o.quantity,
   if pyLower (OrderType.str o.order_type) = "market" then none else o.price,
   o.leverage, o.reduce_only, o.stop_loss, o.take_profit, o.stop_loss_pct,
   o.take_profit_pct, o.is_leverage⟩

/-- The keyword arguments built at app.py lines 171-184 (`/webhook`): the
parsed price is forwarded unchanged. -/
def webhookArgs (o : OrderRequest) : PlaceOrderKwargs :=
  ⟨o.symbol, OrderSide.str o.side, OrderType.str o.order_type, o.quantity,
   o.price, o.leverage, o.reduce_only, o.stop_loss, o.take_profit,
   o.stop_loss_pct, o.take_profit_pct, o.is_leverage⟩

/-- The `/order` endpoint `create_order` (app.py lines 113-149): derive TP/SL,
call the client, convert `ValueError` to HTTP 400 and any other exception to
HTTP 500, with `str(e)` as detail. -/
def ep_create_order (env : ExchangeEnv) (o : OrderRequest) : EndpointResult String :=
  let o2 := deriveTpSl o
  match (callPlaceOrderFromApp env (appOrderArgs o2)).1 with
  | .ok r => .success r
  | .error e =>
    if e.isValueError then .httpError 400 e.msg else .httpError 500 e.msg

/-- The `/webhook` pipeline after a successful parse (app.py lines 159-192):
identical derivation, but the forwarded price is not nulled for market orders,
and a `ValueError` detail is prefixed with `"Validation error: "`. -/
def ep_webhook_parsed (env : ExchangeEnv) (o : OrderRequest) : EndpointResult String :=
  let o2 := deriveTpSl o
  match (callPlaceOrderFromApp env (webhookArgs o2)).1 with
  | .ok r => .success r
  | .error e =>
    if e.isValueError then .httpError 400 (.wrap "Validation error: " e.msg)
    else .httpError 500 e.msg

/-- The `/webhook` endpoint `webhook_order` (app.py lines 152-192): the body is
parsed inside the `try`, so a `pydantic.ValidationError` (a `ValueError`
subclass) is caught by `except ValueError` and answered with HTTP 400 and
detail `f"Validation error: {e}"`. -/
def ep_webhook_order (env : ExchangeEnv) (payload : Payload) : EndpointResult String :=
  match parseOrderRequest payload with
  | .error m => .httpError 400 (.wrap "Validation error: " m)
  | .ok o => ep_webhook_parsed env o

/-- The `/cancel-order` endpoint (app.py lines 207-217): only
`except Exception` exists, so every failure becomes HTTP 500. -/
def ep_cancel_order (env : ExchangeEnv) (order_id symbol : String) :
    EndpointResult String :=
  match (cancel_order env order_id symbol).1 with
  | .ok r => .success r
  | .error e => .httpError 500 e.msg

/-- The `/cancel-all-orders` endpoint (app.py lines 219-229). -/
def ep_cancel_all_orders (env : ExchangeEnv) (symbol : String) :
    EndpointResult String :=
  match (cancel_all_orders env symbol).1 with
  | .ok r => .success r
  | .error e => .httpError 500 e.msg

/-- The `/position/{symbol}` endpoint (app.py lines 231-241). -/
def ep_get_position (env : ExchangeEnv) (symbol : String) :
    EndpointResult (Option Position) :=
  match (get_position env symbol).1 with
  | .ok r => .success r
  | .error e => .httpError 500 e.msg

/-- The `/close-position` endpoint (app.py lines 243-256): it distinguishes
`ValueError` (HTTP 400) from other exceptions (HTTP 500). -/
def ep_close_position (env : ExchangeEnv) (symbol : String) : EndpointResult String :=
  match (close_position env symbol).1 with
  | .ok r => .success r
  | .error e =>
    if e.isValueError then .httpError 400 e.msg else .httpError 500 e.msg

/-- The `/balance` endpoint (app.py lines 258-268). -/
def ep_get_balance (env : ExchangeEnv) : EndpointResult String :=
  match (get_wallet_balance env).1 with
  | .ok r => .success r
  | .error e => .httpError 500 e.msg

/-! ## The older app variant `main.py` -/

/-- The `OrderRequest` model of main.py (lines 13-20): no aliasing, no string
validators, no TP/SL fields. -/
structure MainOrderRequest where
  symbol : String
  side : OrderSide
  order_type : OrderType
  quantity : ℚ
  price : Option ℚ
  leverage : ℤ
  reduce_only : Bool
deriving DecidableEq

/-- The `/order` endpoint of main.py (lines 30-54): a direct call of
`place_order` with exactly the keywords the method declares, then
`except ValueError` → HTTP 400, `except Exception` → HTTP 500. -/
def main_create_order (env : ExchangeEnv) (o : MainOrderRequest) :
    EndpointResult String :=
  match (place_order env o.symbol (OrderSide.str o.side)
      (OrderType.str o.order_type) o.quantity o.leverage o.price o.reduce_only).1 with
  | .ok r => .success r
  | .error e =>
    if e.isValueError then .httpError 400 e.msg else .httpError 500 e.msg

/-! ## Concrete test environments -/

/-- An exchange that accepts everything: a listed symbol with minimum quantity
0, successful leverage setting, an open long position of size 2, and
successful replies throughout. -/
def envOk : ExchangeEnv :=
  ⟨fun _ => .ok [⟨some 0⟩], fun _ _ => .ok (), fun _ => .ok "accepted",
   fun _ => .ok [⟨"Buy", 2⟩], fun _ _ => .ok "cancelled", fun _ => .ok "all-cancelled",
   .ok "balance"⟩

/-- Like `envOk` but with no open position. -/
def envNoPos : ExchangeEnv := { envOk with positionsResult := fun _ => .ok [] }

/-- Like `envOk` but with a minimum order quantity of 10. -/
def envMinQty : ExchangeEnv := { envOk with instruments := fun _ => .ok [⟨some 10⟩] }

/-- Like `envOk` but leverage setting fails with the benign
"leverage not modified" exchange reply. -/
def envLevNotModified : ExchangeEnv :=
  { envOk with setLeverageResult := fun _ _ => .error "Leverage Not Modified (ErrCode: 110043)" }

/-- Like `envOk` but leverage setting fails for a real reason. -/
def envLevFail : ExchangeEnv :=
  { envOk with setLeverageResult := fun _ _ => .error "network down" }

end Bybit

namespace Bybit

/-! ## Theorems -/

/-- Claim C1: For every base price `p > 0` and side: if the side is Buy
(case-insensitive), `compute_tp_sl_from_price` returns
`stop_loss = p * (1 - sl_pct)` when `sl_pct` is given and
`take_profit = p * (1 + tp_pct)` when `tp_pct` is given; if the side is Sell,
it returns `stop_loss = p * (1 + sl_pct)` and `take_profit = p * (1 - tp_pct)`;
whenever a percentage argument is absent (`None`), the corresponding result is
`None` (here expressed with `Option.map`). -/
theorem compute_tp_sl_from_price_spec (p : ℚ) (hp : 0 < p) (side : String)
    (slp tpp : Option ℚ) :
    (pyLower side = "buy" →
      compute_tp_sl_from_price p side slp tpp =
        (slp.map (fun s => p * (1 - s)), tpp.map (fun t => p * (1 + t)))) ∧
    (pyLower side = "sell" →
      compute_tp_sl_from_price p side slp tpp =
        (slp.map (fun s => p * (1 + s)), tpp.map (fun t => p * (1 - t)))) := by
  constructor <;> intro h <;> cases slp <;> cases tpp <;>
    simp [compute_tp_sl_from_price, h]

/-- Witness for C1 at `p = 100`, both percentages present, on both sides. -/
theorem compute_tp_sl_from_price_spec_witness :
    (0 : ℚ) < 100 ∧
    compute_tp_sl_from_price 100 "Buy" (some (1/10)) (some (3/10)) =
      (some (100 * (1 - 1/10)), some (100 * (1 + 3/10))) ∧
    compute_tp_sl_from_price 100 "sElL" (some (1/10)) none =
      (some (100 * (1 + 1/10)), none) :=
  ⟨by norm_num,
   (compute_tp_sl_from_price_spec 100 (by norm_num) "Buy"
      (some (1/10)) (some (3/10))).1 (by decide),
   (compute_tp_sl_from_price_spec 100 (by norm_num) "sElL"
      (some (1/10)) none).2 (by decide)⟩

/-- Claim C4: For a symbol with an open position of nonzero size,
`close_position` sends a single market order on the opposite side of the
position, with quantity `|size|` and the reduce-only flag set; with no open
position (or a zero-size one), it fails and sends no order at all. -/
theorem close_position_spec (env : ExchangeEnv) (symbol : String) :
    (∀ p rest, env.positionsResult symbol = .ok (p :: rest) → p.size ≠ 0 →
      (close_position env symbol).2 = [.getPositions "linear" symbol,
        .order [("category", .str "linear"), ("symbol", .str symbol),
          ("side", .str (if p.side = "Buy" then "Sell" else "Buy")),
          ("orderType", .str "Market"), ("qty", .num |p.size|),
          ("positionIdx", .num 0), ("reduceOnly", .bool true)]]) ∧
    (env.positionsResult symbol = .ok [] →
      (∃ e, (close_position env symbol).1 = .error e) ∧
      (close_position env symbol).2 = [.getPositions "linear" symbol]) ∧
    (∀ p rest, env.positionsResult symbol = .ok (p :: rest) → p.size = 0 →
      (∃ e, (close_position env symbol).1 = .error e) ∧
      (close_position env symbol).2 = [.getPositions "linear" symbol]) := by
  refine ⟨fun p rest hp hs => ?_, fun hp => ?_, fun p rest hp hs => ?_⟩
  · simp only [close_position, get_position, hp]
    cases h : env.orderResult
        [("category", .str "linear"), ("symbol", .str symbol),
          ("side", .str (if p.side = "Buy" then "Sell" else "Buy")),
          ("orderType", .str "Market"), ("qty", .num |p.size|),
          ("positionIdx", .num 0), ("reduceOnly", .bool true)] <;>
      simp [h, hs]
  · simp [close_position, get_position, hp]
  · simp [close_position, get_position, hp, hs]

/-- Witness for C4: against `envOk` (long position of size 2) a reduce-only
market Sell of quantity `|2|` is sent; against `envNoPos` nothing is sent. -/
theorem close_position_spec_witness :
    (close_position envOk "BTCUSDT").2 = [.getPositions "linear" "BTCUSDT",
      .order [("category", .str "linear"), ("symbol", .str "BTCUSDT"),
        ("side", .str (if ("Buy" : String) = "Buy" then "Sell" else "Buy")),
        ("orderType", .str "Market"), ("qty", .num |(2 : ℚ)|),
        ("positionIdx", .num 0), ("reduceOnly", .bool true)]] ∧
    (∃ e, (close_position envNoPos "BTCUSDT").1 = .error e) ∧
    (close_position envNoPos "BTCUSDT").2 = [.getPositions "linear" "BTCUSDT"] :=
  ⟨(close_position_spec envOk "BTCUSDT").1 ⟨"Buy", 2⟩ [] rfl (by norm_num),
   (close_position_spec envNoPos "BTCUSDT").2.1 rfl⟩

/-- Claim C5: The TP/SL derivation step shared by `/order` and `/webhook` is a
frame: it does nothing without a reference price or without percentages, it
never overwrites an explicitly supplied absolute `stop_loss`/`take_profit`,
and the preserved values are the ones forwarded to the client call by both
endpoints. -/
theorem derive_tp_sl_frame (o : OrderRequest) :
    (o.price = none → deriveTpSl o = o) ∧
    (o.stop_loss_pct = none → o.take_profit_pct = none → deriveTpSl o = o) ∧
    (∀ v, o.stop_loss = some v → (deriveTpSl o).stop_loss = some v) ∧
    (∀ v, o.take_profit = some v → (deriveTpSl o).take_profit = some v) ∧
    (∀ v, o.stop_loss = some v →
      (appOrderArgs (deriveTpSl o)).stop_loss = some v ∧
      (webhookArgs (deriveTpSl o)).stop_loss = some v) ∧
    (∀ v, o.take_profit = some v →
      (appOrderArgs (deriveTpSl o)).take_profit = some v ∧
      (webhookArgs (deriveTpSl o)).take_profit = some v) := by
  have hsl : ∀ v, o.stop_loss = some v → (deriveTpSl o).stop_loss = some v := by
    intro v hv
    unfold deriveTpSl
    cases o.price <;> simp [hv] <;> split <;> simp [hv]
  have htp : ∀ v, o.take_profit = some v → (deriveTpSl o).take_profit = some v := by
    intro v hv
    unfold deriveTpSl
    cases o.price <;> simp [hv] <;> split <;> simp [hv]
  refine ⟨fun hp => by simp [deriveTpSl, hp], fun h1 h2 => ?_, hsl, htp,
    fun v hv => ⟨?_, ?_⟩, fun v hv => ⟨?_, ?_⟩⟩
  · unfold deriveTpSl
    cases o.price <;> simp [h1, h2]
  · simpa [appOrderArgs] using hsl v hv
  · simpa [webhookArgs] using hsl v hv
  · simpa [appOrderArgs] using htp v hv
  · simpa [webhookArgs] using htp v hv

/-- Witness for C5: a request with `price`, both percentages and an explicit
`stop_loss = 95` keeps `stop_loss = 95` through derivation and into the
forwarded arguments of both endpoints. -/
theorem derive_tp_sl_frame_witness :
    (deriveTpSl ⟨"BTCUSDT", .Buy, .Limit, 1, some 100, 1, false, some 95, none,
        some (1/10), some (3/10), some 0⟩).stop_loss = some 95 ∧
    (appOrderArgs (deriveTpSl ⟨"BTCUSDT", .Buy, .Limit, 1, some 100, 1, false,
        some 95, none, some (1/10), some (3/10), some 0⟩)).stop_loss = some 95 :=
  ⟨(derive_tp_sl_frame _).2.2.1 95 rfl, ((derive_tp_sl_frame _).2.2.2.2.1 95 rfl).1⟩

/-- Claim C10: `place_order` looks up the symbol's minimum order quantity first,
and a request below it raises a `ValueError` carrying both quantities (and the
symbol): the trace shows the instruments lookup happened and that neither a
leverage change nor an order submission was sent. -/
theorem place_order_min_qty_guard (env : ExchangeEnv)
    (symbol side order_type : String) (qty : ℚ) (leverage : ℤ)
    (price : Option ℚ) (reduce_only : Bool) (info : SymbolInfo)
    (rest : List SymbolInfo)
    (hi : env.instruments symbol = .ok (info :: rest))
    (hq : qty < info.minOrderQty.getD 0) :
    place_order env symbol side order_type qty leverage price reduce_only =
      (.error (.valueError (.minQty qty (info.minOrderQty.getD 0) symbol)),
       [.getInstrumentsInfo "linear" symbol]) := by
  simp [place_order, hi, hq]

/-- The keywords app.py passes that `place_order`'s signature does not
declare. -/
theorem unexpectedKwargs_eq :
    unexpectedKwargs =
      ["stop_loss", "take_profit", "stop_loss_pct", "take_profit_pct",
       "is_leverage"] := by
  decide

/-- The order object used to exhibit C2's failure: a plain market buy carrying
an explicit stop-loss and take-profit. -/
def oWithTpSl : OrderRequest :=
  ⟨"BTCUSDT", .Buy, .Market, 1, none, 1, false, some 90, some 130, none, none,
   some 0⟩

/-- Claim C2: The order-placement path never populates `stopLoss`/`takeProfit`:
the app.py call sites pass `stop_loss`/`take_profit` keywords that
`BybitClient.place_order` does not accept, so the call raises `TypeError`
(HTTP 500) before the client body runs — shown here on a request carrying
both absolute values — and, independently, the parameter dictionaries
`place_order` sends to the exchange never contain a `stopLoss` or
`takeProfit` key. -/
theorem order_path_drops_tp_sl :
    ep_create_order envOk oWithTpSl =
      .httpError 500
        (.raw "place_order() got an unexpected keyword argument \x27stop_loss\x27") ∧
    ep_webhook_parsed envOk oWithTpSl =
      .httpError 500
        (.raw "place_order() got an unexpected keyword argument \x27stop_loss\x27") ∧
    ∀ (env : ExchangeEnv) (symbol side order_type : String) (qty : ℚ)
      (leverage : ℤ) (price : Option ℚ) (reduce_only : Bool)
      (params : List (String × PyVal)),
      ExchangeCall.order params ∈
          (place_order env symbol side order_type qty leverage price reduce_only).2 →
      params.lookup "stopLoss" = none ∧ params.lookup "takeProfit" = none := by
  refine ⟨by decide, by decide, ?_⟩
  intro env symbol side order_type qty leverage price reduce_only params hmem
  simp only [place_order, set_leverage] at hmem
  repeat' split at hmem
  all_goals simp_all [List.lookup]

/-- Witness for C2's universally quantified part: the parameters of the order
`envOk` receives from a successful `place_order` run contain no
`stopLoss`/`takeProfit` key. -/
theorem order_path_drops_tp_sl_witness :
    List.lookup "stopLoss"
        [("category", PyVal.str "linear"), ("symbol", PyVal.str "BTCUSDT"),
         ("side", PyVal.str "Buy"), ("orderType", PyVal.str "Market"),
         ("qty", PyVal.num 1), ("positionIdx", PyVal.num 0),
         ("reduceOnly", PyVal.bool false)] = none ∧
    List.lookup "takeProfit"
        [("category", PyVal.str "linear"), ("symbol", PyVal.str "BTCUSDT"),
         ("side", PyVal.str "Buy"), ("orderType", PyVal.str "Market"),
         ("qty", PyVal.num 1), ("positionIdx", PyVal.num 0),
         ("reduceOnly", PyVal.bool false)] = none :=
  order_path_drops_tp_sl.2.2 envOk "BTCUSDT" "Buy" "Market" 1 1 none false _
    (by decide)

/-- Lemma: `deriveTpSl` never changes the request's order type. -/
theorem deriveTpSl_order_type (o : OrderRequest) :
    (deriveTpSl o).order_type = o.order_type := by
  unfold deriveTpSl
  cases o.price <;> simp <;> split <;> simp

/-- The market order with a price used to exhibit C3's difference. -/
def oMarketPriced : OrderRequest :=
  ⟨"BTCUSDT", .Buy, .Market, 1, some 50000, 1, false, none, none, none, none,
   some 0⟩

/-- Claim C3 (counterexample): The claim that `/order` and `/webhook` forward
the same parameter set fails: on a market order with a price, `/order` nulls
the forwarded `price` keyword while `/webhook` forwards the parsed price, so
the two keyword-argument sets differ. -/
theorem order_webhook_args_differ :
    (appOrderArgs (deriveTpSl oMarketPriced)).price = none ∧
    (webhookArgs (deriveTpSl oMarketPriced)).price = some 50000 ∧
    appOrderArgs (deriveTpSl oMarketPriced) ≠ webhookArgs (deriveTpSl oMarketPriced) := by
  refine ⟨by decide, by decide, by decide⟩

/-- Claim C3 (amended): Both endpoints run the same derivation (`deriveTpSl`)
and produce the same HTTP result on every parsed request; the forwarded
keyword arguments coincide except that `/order` nulls `price` for market
orders (`/webhook` forwards the parsed price unchanged), so for non-market
order types the argument sets are identical. -/
theorem order_webhook_pipeline (env : ExchangeEnv) (o : OrderRequest) :
    ep_create_order env o = ep_webhook_parsed env o ∧
    webhookArgs (deriveTpSl o) =
      { appOrderArgs (deriveTpSl o) with price := (deriveTpSl o).price } ∧
    (pyLower (OrderType.str o.order_type) ≠ "market" →
      appOrderArgs (deriveTpSl o) = webhookArgs (deriveTpSl o)) := by
  refine ⟨?_, by simp [appOrderArgs, webhookArgs], ?_⟩
  · simp [ep_create_order, ep_webhook_parsed, callPlaceOrderFromApp,
      unexpectedKwargs_eq, PyErr.isValueError, PyErr.msg]
  · intro h
    simp only [appOrderArgs, webhookArgs, deriveTpSl_order_type, if_neg h]

/-- Witness for C3's amended claim at a concrete limit order: the forwarded
argument sets agree. -/
theorem order_webhook_pipeline_witness :
    appOrderArgs (deriveTpSl ⟨"BTCUSDT", .Buy, .Limit, 1, some 50000, 1, false,
        none, none, none, none, some 0⟩) =
      webhookArgs (deriveTpSl ⟨"BTCUSDT", .Buy, .Limit, 1, some 50000, 1, false,
        none, none, none, none, some 0⟩) :=
  (order_webhook_pipeline envOk _).2.2 (by decide)

/-- Claim C7: Under a listed symbol and a quantity above the minimum:
the leverage call is issued (with `buyLeverage = sellLeverage =` the requested
leverage) before any order submission — any trace containing an order
submission is exactly instruments-lookup, leverage call, order; an exchange
reply containing "leverage not modified" (case-insensitive) makes
`place_order` behave exactly as if leverage setting had succeeded; any other
leverage failure aborts with an error and no order is sent. -/
theorem place_order_leverage_spec (env : ExchangeEnv)
    (symbol side order_type : String) (qty : ℚ) (leverage : ℤ)
    (price : Option ℚ) (reduce_only : Bool) (info : SymbolInfo)
    (rest : List SymbolInfo)
    (hi : env.instruments symbol = .ok (info :: rest))
    (hq : ¬ qty < info.minOrderQty.getD 0) :
    (∀ params, ExchangeCall.order params ∈
        (place_order env symbol side order_type qty leverage price reduce_only).2 →
      (place_order env symbol side order_type qty leverage price reduce_only).2 =
        [.getInstrumentsInfo "linear" symbol,
         .setLeverage "linear" symbol leverage leverage, .order params]) ∧
    (∀ e, env.setLeverageResult symbol leverage = .error e →
      strContainsSub (pyLower e) "leverage not modified" = true →
      place_order env symbol side order_type qty leverage price reduce_only =
        place_order { env with setLeverageResult := fun _ _ => .ok () }
          symbol side order_type qty leverage price reduce_only) ∧
    (∀ e, env.setLeverageResult symbol leverage = .error e →
      strContainsSub (pyLower e) "leverage not modified" = false →
      (place_order env symbol side order_type qty leverage price reduce_only).1 =
        .error (.exception (.wrap "Failed to place order: "
          (.wrap "Failed to set leverage: " (.raw e)))) ∧
      (place_order env symbol side order_type qty leverage price reduce_only).2 =
        [.getInstrumentsInfo "linear" symbol,
         .setLeverage "linear" symbol leverage leverage]) := by
  refine ⟨?_, fun e he hc => ?_, fun e he hc => ?_⟩
  · intro params hmem
    simp only [place_order, set_leverage, hi, if_neg hq] at hmem ⊢
    repeat' split at hmem
    all_goals simp_all
  · simp [place_order, set_leverage, hi, if_neg hq, he, hc]
  · simp [place_order, set_leverage, hi, if_neg hq, he, hc, PyErr.msg]

/-- Witness for C7: a benign "Leverage Not Modified" reply leaves the run
identical to a successful one, and a real failure aborts before any order. -/
theorem place_order_leverage_spec_witness :
    place_order envLevNotModified "BTCUSDT" "Buy" "Market" 1 5 none false =
      place_order { envLevNotModified with setLeverageResult := fun _ _ => .ok () }
        "BTCUSDT" "Buy" "Market" 1 5 none false ∧
    (place_order envLevFail "BTCUSDT" "Buy" "Market" 1 5 none false).2 =
      [.getInstrumentsInfo "linear" "BTCUSDT", .setLeverage "linear" "BTCUSDT" 5 5] :=
  ⟨(place_order_leverage_spec envLevNotModified "BTCUSDT" "Buy" "Market" 1 5
      none false ⟨some 0⟩ [] rfl (by norm_num)).2.1
      "Leverage Not Modified (ErrCode: 110043)" rfl (by decide),
   ((place_order_leverage_spec envLevFail "BTCUSDT" "Buy" "Market" 1 5
      none false ⟨some 0⟩ [] rfl (by norm_num)).2.2
      "network down" rfl (by decide)).2⟩

/-! ### Helper lemmas about payload lookup and `Except` chains -/

/-- Lookup on a cons cell of a payload. -/
theorem lookupPv_cons (k a : String) (v : PyVal) (l : List (String × PyVal)) :
    List.lookup k ((a, v) :: l) = if k = a then some v else List.lookup k l := by
  by_cases h : k = a <;> simp [List.lookup, h, beq_false_of_ne]

/-- Unfolding an `Except` bind that succeeds. -/
theorem except_bind_ok {ε α β : Type} (x : Except ε α) (f : α → Except ε β)
    (c : β) : (x >>= f) = Except.ok c ↔ ∃ a, x = .ok a ∧ f a = .ok c := by
  cases x <;> simp [Bind.bind, Except.bind]

/-- Lemma: `fieldStr` depends only on the looked-up value. -/
theorem fieldStr_congr (v1 v2 : Payload) (key : String)
    (h : List.lookup key v1 = List.lookup key v2) :
    fieldStr v1 key = fieldStr v2 key := by
  unfold fieldStr
  rw [h]

/-- Lemma: `fieldSide` depends only on the looked-up value. -/
theorem fieldSide_congr (v1 v2 : Payload)
    (h : List.lookup "side" v1 = List.lookup "side" v2) :
    fieldSide v1 = fieldSide v2 := by
  unfold fieldSide
  rw [h]

/-- Lemma: `fieldOrderType` depends only on the looked-up value. -/
theorem fieldOrderType_congr (v1 v2 : Payload)
    (h : List.lookup "order_type" v1 = List.lookup "order_type" v2) :
    fieldOrderType v1 = fieldOrderType v2 := by
  unfold fieldOrderType
  rw [h]

/-- Lemma: `fieldPrice` depends only on the looked-up value. -/
theorem fieldPrice_congr (v1 v2 : Payload)
    (h : List.lookup "price" v1 = List.lookup "price" v2) :
    fieldPrice v1 = fieldPrice v2 := by
  unfold fieldPrice
  rw [h]

/-- Lemma: `fieldLeverage` depends only on the looked-up value. -/
theorem fieldLeverage_congr (v1 v2 : Payload)
    (h : List.lookup "leverage" v1 = List.lookup "leverage" v2) :
    fieldLeverage v1 = fieldLeverage v2 := by
  unfold fieldLeverage
  rw [h]

/-- Lemma: `fieldReduceOnly` depends only on the looked-up value. -/
theorem fieldReduceOnly_congr (v1 v2 : Payload)
    (h : List.lookup "reduce_only" v1 = List.lookup "reduce_only" v2) :
    fieldReduceOnly v1 = fieldReduceOnly v2 := by
  unfold fieldReduceOnly
  rw [h]

/-- Lemma: `fieldOptFloat` depends only on the looked-up value. -/
theorem fieldOptFloat_congr (v1 v2 : Payload) (key : String)
    (h : List.lookup key v1 = List.lookup key v2) :
    fieldOptFloat v1 key = fieldOptFloat v2 key := by
  unfold fieldOptFloat
  rw [h]

/-- Lemma: `fieldPct` depends only on the looked-up value. -/
theorem fieldPct_congr (v1 v2 : Payload) (key : String)
    (h : List.lookup key v1 = List.lookup key v2) :
    fieldPct v1 key = fieldPct v2 key := by
  unfold fieldPct
  rw [h]

/-- Lemma: `fieldIsLeverage` depends only on the looked-up value. -/
theorem fieldIsLeverage_congr (v1 v2 : Payload)
    (h : List.lookup "is_leverage" v1 = List.lookup "is_leverage" v2) :
    fieldIsLeverage v1 = fieldIsLeverage v2 := by
  unfold fieldIsLeverage
  rw [h]

/-- Value of `fieldQuantity` when the `quantity` key is present. -/
theorem fieldQuantity_some (values : Payload) (x : PyVal)
    (h : List.lookup "quantity" values = some x) :
    fieldQuantity values = (do
      let q ← pyFloat x
      if 0 < q then Except.ok q
      else Except.error (Msg.raw "ensure this value is greater than 0: quantity")) := by
  unfold fieldQuantity
  rw [h]

/-- Field validation is determined by the lookups of the declared field keys
(plus the quantity field's own outcome): payloads agreeing there validate
identically. -/
theorem parseFields_ext (v1 v2 : Payload)
    (h : ∀ k, k ≠ "qty" → k ≠ "quantity" →
      List.lookup k v1 = List.lookup k v2)
    (hq : fieldQuantity v1 = fieldQuantity v2) :
    parseFields v1 = parseFields v2 := by
  unfold parseFields
  rw [fieldStr_congr v1 v2 "symbol" (h _ (by decide) (by decide)),
    fieldSide_congr v1 v2 (h _ (by decide) (by decide)),
    fieldOrderType_congr v1 v2 (h _ (by decide) (by decide)), hq,
    fieldPrice_congr v1 v2 (h _ (by decide) (by decide)),
    fieldLeverage_congr v1 v2 (h _ (by decide) (by decide)),
    fieldReduceOnly_congr v1 v2 (h _ (by decide) (by decide)),
    fieldOptFloat_congr v1 v2 "stop_loss" (h _ (by decide) (by decide)),
    fieldOptFloat_congr v1 v2 "take_profit" (h _ (by decide) (by decide)),
    fieldPct_congr v1 v2 "stop_loss_pct" (h _ (by decide) (by decide)),
    fieldPct_congr v1 v2 "take_profit_pct" (h _ (by decide) (by decide)),
    fieldIsLeverage_congr v1 v2 (h _ (by decide) (by decide))]

/-- A successful field validation pins the quantity to the quantity field's
own result. -/
theorem parseFields_ok_quantity (values : Payload) (o : OrderRequest)
    (h : parseFields values = .ok o) :
    fieldQuantity values = .ok o.quantity := by
  unfold parseFields at h
  simp only [except_bind_ok] at h
  obtain ⟨sym, hsym, side, hside, ot, hot, q, hq, pr, hpr, lev, hlev, ro, hro,
    sl, hsl, tp, htp, slp, hslp, tpp, htpp, il, hil, hok⟩ := h
  simp only [Except.ok.injEq] at hok
  subst hok
  exact hq

/-- A successful field validation pins the price to the price field's own
result. -/
theorem parseFields_ok_price (values : Payload) (o : OrderRequest)
    (h : parseFields values = .ok o) :
    fieldPrice values = .ok o.price := by
  unfold parseFields at h
  simp only [except_bind_ok] at h
  obtain ⟨sym, hsym, side, hside, ot, hot, q, hq, pr, hpr, lev, hlev, ro, hro,
    sl, hsl, tp, htp, slp, hslp, tpp, htpp, il, hil, hok⟩ := h
  simp only [Except.ok.injEq] at hok
  subst hok
  exact hpr

/-- The pre root validator only ever adds a `quantity` entry: lookups of every
other key are unchanged. -/
theorem populate_quantity_lookup (payload values : Payload) (k : String)
    (hk : k ≠ "quantity") (h : populate_quantity payload = .ok values) :
    List.lookup k values = List.lookup k payload := by
  unfold populate_quantity at h
  split at h
  · split at h
    · split at h
      · simp only [Except.ok.injEq] at h
        subst h
        rw [lookupPv_cons]
        simp [hk]
      · cases h
    · simp only [Except.ok.injEq] at h
      subst h
      rfl
  · simp only [Except.ok.injEq] at h
    subst h
    rfl

/-- Claim C6: Quantity aliasing: a payload supplying the quantity only under
`qty` validates to the same `OrderRequest` as the same payload supplying that
value under `quantity`; when both keys are present, the `quantity` entry wins
and the `qty` entry is ignored entirely. -/
theorem quantity_qty_alias (rest : Payload) (v w : PyVal)
    (h1 : List.lookup "qty" rest = none)
    (h2 : List.lookup "quantity" rest = none) :
    (∀ o, parseOrderRequest (("qty", v) :: rest) = .ok o ↔
          parseOrderRequest (("quantity", v) :: rest) = .ok o) ∧
    parseOrderRequest (("quantity", v) :: ("qty", w) :: rest) =
      parseOrderRequest (("quantity", v) :: rest) := by
  have lq1 : List.lookup "qty" (("qty", v) :: rest) = some v := by
    rw [lookupPv_cons]
    simp
  have lq2 : List.lookup "quantity" (("qty", v) :: rest) = none := by
    rw [lookupPv_cons]
    simp [h2]
  have lq3 : List.lookup "qty" (("quantity", v) :: rest) = none := by
    rw [lookupPv_cons]
    simp [h1]
  have lq4 : List.lookup "quantity" (("quantity", v) :: rest) = some v := by
    rw [lookupPv_cons]
    simp
  have lq5 : List.lookup "quantity" (("quantity", v) :: ("qty", w) :: rest) = some v := by
    rw [lookupPv_cons]
    simp
  have hpopB : populate_quantity (("quantity", v) :: rest) =
      .ok (("quantity", v) :: rest) := by
    unfold populate_quantity
    rw [lq3]
    simp
  have hPB : parseOrderRequest (("quantity", v) :: rest) =
      parseFields (("quantity", v) :: rest) := by
    unfold parseOrderRequest
    rw [hpopB]
    rfl
  have hpopA : populate_quantity (("quantity", v) :: ("qty", w) :: rest) =
      .ok (("quantity", v) :: ("qty", w) :: rest) := by
    unfold populate_quantity
    rw [lq5]
    simp
  have hPA : parseOrderRequest (("quantity", v) :: ("qty", w) :: rest) =
      parseFields (("quantity", v) :: ("qty", w) :: rest) := by
    unfold parseOrderRequest
    rw [hpopA]
    rfl
  have hAB : parseFields (("quantity", v) :: ("qty", w) :: rest) =
      parseFields (("quantity", v) :: rest) := by
    refine parseFields_ext _ _ (fun k hk hk2 => ?_) ?_
    · rw [lookupPv_cons, lookupPv_cons, lookupPv_cons]
      simp [hk, hk2]
    · unfold fieldQuantity
      rw [lq5, lq4]
  refine ⟨fun o => ?_, by rw [hPA, hPB, hAB]⟩
  cases hv : pyFloat v with
  | ok q =>
    have hpopL : populate_quantity (("qty", v) :: rest) =
        .ok (("quantity", PyVal.num q) :: ("qty", v) :: rest) := by
      unfold populate_quantity
      rw [lq1, lq2]
      simp [hv]
    have hPL : parseOrderRequest (("qty", v) :: rest) =
        parseFields (("quantity", PyVal.num q) :: ("qty", v) :: rest) := by
      unfold parseOrderRequest
      rw [hpopL]
      rfl
    have hfq : fieldQuantity (("quantity", PyVal.num q) :: ("qty", v) :: rest) =
        fieldQuantity (("quantity", v) :: rest) := by
      rw [fieldQuantity_some _ _ (show List.lookup "quantity"
            (("quantity", PyVal.num q) :: ("qty", v) :: rest) = some (PyVal.num q)
            from by rw [lookupPv_cons]; simp),
        fieldQuantity_some _ _ lq4, hv,
        show pyFloat (PyVal.num q) = Except.ok q from rfl]
    have hEq : parseFields (("quantity", PyVal.num q) :: ("qty", v) :: rest) =
        parseFields (("quantity", v) :: rest) := by
      refine parseFields_ext _ _ (fun k hk hk2 => ?_) hfq
      rw [lookupPv_cons, lookupPv_cons, lookupPv_cons]
      simp [hk, hk2]
    rw [hPL, hPB, hEq]
  | error m =>
    have hPL : parseOrderRequest (("qty", v) :: rest) = .error m := by
      unfold parseOrderRequest populate_quantity
      rw [lq1, lq2]
      simp [hv, Bind.bind, Except.bind]
    constructor
    · intro h
      rw [hPL] at h
      cases h
    · intro h
      rw [hPB] at h
      have hq := parseFields_ok_quantity _ _ h
      unfold fieldQuantity at hq
      rw [lq4] at hq
      simp [hv, Bind.bind, Except.bind] at hq

/-- Witness for C6: `qty`-only, `quantity`-only and both-keys payloads for a
concrete market buy. -/
def restEx : Payload :=
  [("symbol", .str "BTCUSDT"), ("side", .str "Buy"), ("order_type", .str "Market")]

/-- Witness for C6 on `restEx`. -/
theorem quantity_qty_alias_witness :
    parseOrderRequest (("quantity", PyVal.num 1) :: ("qty", PyVal.num 2) :: restEx) =
      parseOrderRequest (("quantity", PyVal.num 1) :: restEx) ∧
    (parseOrderRequest (("qty", PyVal.num 1) :: restEx) =
        .ok ⟨"BTCUSDT", .Buy, .Market, 1, none, 1, false, none, none, none, none,
          some 0⟩ ↔
      parseOrderRequest (("quantity", PyVal.num 1) :: restEx) =
        .ok ⟨"BTCUSDT", .Buy, .Market, 1, none, 1, false, none, none, none, none,
          some 0⟩) :=
  ⟨(quantity_qty_alias restEx (PyVal.num 1) (PyVal.num 2) (by decide) (by decide)).2,
   (quantity_qty_alias restEx (PyVal.num 1) (PyVal.num 2) (by decide) (by decide)).1 _⟩

/-- Value of `fieldPrice` when the `price` key is present. -/
theorem fieldPrice_some (values : Payload) (x : PyVal)
    (h : List.lookup "price" values = some x) :
    fieldPrice values = (do
      let pv ← parse_price x
      match pv with
      | none => Except.ok none
      | some q =>
        if 0 < q then Except.ok (some q)
        else Except.error (Msg.raw "ensure this value is greater than 0: price")) := by
  unfold fieldPrice
  rw [h]

/-- Claim C9 (amended): Price placeholder handling: a string price that
`float()` cannot convert parses to `price = None` when it strips to the
`{{close}}` placeholder and fails validation otherwise; a string that converts
to a positive number parses to that number, while one that converts to a
non-positive number fails the field's `gt=0` constraint (so it does not parse
at all). -/
theorem price_string_spec (payload : Payload) (s : String)
    (hp : List.lookup "price" payload = some (.str s)) :
    (pyFloatOfString? s = none → pyStrip s = "\x7b\x7bclose\x7d\x7d" →
      ∀ o, parseOrderRequest payload = .ok o → o.price = none) ∧
    (pyFloatOfString? s = none → pyStrip s ≠ "\x7b\x7bclose\x7d\x7d" →
      ∀ o, parseOrderRequest payload ≠ .ok o) ∧
    (∀ q, pyFloatOfString? s = some q → 0 < q →
      ∀ o, parseOrderRequest payload = .ok o → o.price = some q) ∧
    (∀ q, pyFloatOfString? s = some q → ¬ 0 < q →
      ∀ o, parseOrderRequest payload ≠ .ok o) := by
  have key : ∀ o, parseOrderRequest payload = .ok o →
      (do
        let pv ← parse_price (.str s)
        match pv with
        | none => Except.ok none
        | some q =>
          if 0 < q then Except.ok (some q)
          else Except.error (Msg.raw "ensure this value is greater than 0: price")) =
        Except.ok o.price := by
    intro o h
    unfold parseOrderRequest at h
    rw [except_bind_ok] at h
    obtain ⟨values, hpop, hpf⟩ := h
    have hlp : List.lookup "price" values = some (.str s) := by
      rw [populate_quantity_lookup payload values "price" (by decide) hpop, hp]
    have hpr := parseFields_ok_price values o hpf
    rw [fieldPrice_some values _ hlp] at hpr
    exact hpr
  refine ⟨fun hf hs o h => ?_, fun hf hs o h => ?_, fun q hf hq o h => ?_,
    fun q hf hq o h => ?_⟩
  · have k := key o h
    simp [parse_price, hf, hs, Bind.bind, Except.bind] at k
    exact k.symm
  · have k := key o h
    simp [parse_price, hf, hs, Bind.bind, Except.bind] at k
  · have k := key o h
    simp [parse_price, hf, hq, Bind.bind, Except.bind] at k
    exact k.symm
  · have k := key o h
    simp [parse_price, hf, hq, Bind.bind, Except.bind] at k

/-- C9 counterexample payload: a price string that converts to a negative
number. -/
def plNegPrice : Payload :=
  [("symbol", .str "BTCUSDT"), ("side", .str "Buy"), ("order_type", .str "Market"),
   ("quantity", .num 1), ("price", .str "-1")]

/-- Claim C9 (counterexample): The string "-1" converts to a number, yet the
request does not parse to that number: validation fails on the price field's
`gt=0` constraint. -/
theorem price_negative_string_rejected :
    pyFloatOfString? "-1" = some (-1) ∧
    parseOrderRequest plNegPrice =
      .error (.raw "ensure this value is greater than 0: price") :=
  ⟨by decide, by decide⟩

/-- C9 witness payloads: a padded `{{close}}` placeholder and a positive
numeric string. -/
def plClosePh : Payload :=
  [("symbol", .str "BTCUSDT"), ("side", .str "Buy"), ("order_type", .str "Market"),
   ("quantity", .num 1), ("price", .str " \x7b\x7bclose\x7d\x7d ")]

/-- The request `plClosePh` parses to. -/
def oClosePh : OrderRequest :=
  ⟨"BTCUSDT", .Buy, .Market, 1, none, 1, false, none, none, none, none, some 0⟩

/-- C9 witness payload with price "2". -/
def plPrice2 : Payload :=
  [("symbol", .str "BTCUSDT"), ("side", .str "Buy"), ("order_type", .str "Limit"),
   ("quantity", .num 1), ("price", .str "2")]

/-- The request `plPrice2` parses to. -/
def oPrice2 : OrderRequest :=
  ⟨"BTCUSDT", .Buy, .Limit, 1, some 2, 1, false, none, none, none, none, some 0⟩

/-- Witness for C9: the placeholder parses to no price, the numeric string "2"
parses to price 2. -/
theorem price_string_spec_witness :
    oClosePh.price = none ∧ oPrice2.price = some 2 :=
  ⟨(price_string_spec plClosePh " \x7b\x7bclose\x7d\x7d " (by decide)).1
      (by decide) (by decide) oClosePh (by decide),
   (price_string_spec plPrice2 "2" (by decide)).2.2.1 2 (by decide) (by decide)
      oPrice2 (by decide)⟩

/-- C8 counterexample payload: an invalid side, failing request validation. -/
def plBadSide : Payload :=
  [("symbol", .str "BTCUSDT"), ("side", .str "HOLD"),
   ("order_type", .str "Market"), ("quantity", .num 1)]

/-- Claim C8 (counterexample): On a validation failure (a `ValueError`), the
`/webhook` endpoint answers 400 but its detail is the message prefixed with
"Validation error: ", not the error message itself. -/
theorem webhook_detail_prefixed :
    parseOrderRequest plBadSide = .error (.raw "side must be one of: Buy, Sell") ∧
    ep_webhook_order envOk plBadSide =
      .httpError 400
        (.wrap "Validation error: " (.raw "side must be one of: Buy, Sell")) ∧
    Msg.wrap "Validation error: " (.raw "side must be one of: Buy, Sell") ≠
      Msg.raw "side must be one of: Buy, Sell" :=
  ⟨by decide, by decide, by decide⟩

/-- Claim C8 (amended): Every endpoint converts every failure of its underlying
operation into an HTTP error response: `/order`, `/close-position` and the
main.py `/order` answer 400 with the error message for a `ValueError` and 500
with the message otherwise; `/webhook` does the same but prefixes 400 details
with "Validation error: " (including request-validation failures);
`/cancel-order`, `/cancel-all-orders`, `/position/{symbol}` and `/balance`
answer 500 with the message for every failure, `ValueError` included. -/
theorem endpoint_error_conversion (env : ExchangeEnv) :
    (∀ (o : OrderRequest) e,
      (callPlaceOrderFromApp env (appOrderArgs (deriveTpSl o))).1 = .error e →
      ep_create_order env o =
        .httpError (if e.isValueError then 400 else 500) e.msg) ∧
    (∀ (o : OrderRequest) r,
      (callPlaceOrderFromApp env (appOrderArgs (deriveTpSl o))).1 = .ok r →
      ep_create_order env o = .success r) ∧
    (∀ payload m, parseOrderRequest payload = .error m →
      ep_webhook_order env payload =
        .httpError 400 (.wrap "Validation error: " m)) ∧
    (∀ payload (o : OrderRequest) e, parseOrderRequest payload = .ok o →
      (callPlaceOrderFromApp env (webhookArgs (deriveTpSl o))).1 = .error e →
      ep_webhook_order env payload =
        .httpError (if e.isValueError then 400 else 500)
          (if e.isValueError then .wrap "Validation error: " e.msg else e.msg)) ∧
    (∀ order_id symbol e, (cancel_order env order_id symbol).1 = .error e →
      ep_cancel_order env order_id symbol = .httpError 500 e.msg) ∧
    (∀ symbol e, (cancel_all_orders env symbol).1 = .error e →
      ep_cancel_all_orders env symbol = .httpError 500 e.msg) ∧
    (∀ symbol e, (get_position env symbol).1 = .error e →
      ep_get_position env symbol = .httpError 500 e.msg) ∧
    (∀ symbol e, (close_position env symbol).1 = .error e →
      ep_close_position env symbol =
        .httpError (if e.isValueError then 400 else 500) e.msg) ∧
    (∀ e, (get_wallet_balance env).1 = .error e →
      ep_get_balance env = .httpError 500 e.msg) ∧
    (∀ (o : MainOrderRequest) e,
      (place_order env o.symbol (OrderSide.str o.side) (OrderType.str o.order_type)
          o.quantity o.leverage o.price o.reduce_only).1 = .error e →
      main_create_order env o =
        .httpError (if e.isValueError then 400 else 500) e.msg) := by
  refine ⟨fun o e h => ?_, fun o r h => ?_, fun payload m h => ?_,
    fun payload o e hp h => ?_, fun order_id symbol e h => ?_,
    fun symbol e h => ?_, fun symbol e h => ?_, fun symbol e h => ?_,
    fun e h => ?_, fun o e h => ?_⟩
  · simp only [ep_create_order, h]
    cases hval : e.isValueError <;> simp [hval]
  · simp only [ep_create_order, h]
  · simp only [ep_webhook_order, h]
  · simp only [ep_webhook_order, hp, ep_webhook_parsed, h]
    cases hval : e.isValueError <;> simp [hval]
  · simp only [ep_cancel_order, h]
  · simp only [ep_cancel_all_orders, h]
  · simp only [ep_get_position, h]
  · simp only [ep_close_position, h]
    cases hval : e.isValueError <;> simp [hval]
  · simp only [ep_get_balance, h]
  · simp only [main_create_order, h]
    cases hval : e.isValueError <;> simp [hval]

/-- An exchange whose cancel-order SDK call fails. -/
def envCancelFail : ExchangeEnv :=
  { envOk with cancelResult := fun _ _ => .error "boom" }

/-- Witness for C8: a failing cancel (a non-`ValueError`) is answered with
HTTP 500 carrying the wrapped message. -/
theorem endpoint_error_conversion_witness :
    ep_cancel_order envCancelFail "o1" "BTCUSDT" =
      .httpError 500
        (PyErr.exception (.wrap "Failed to cancel order: " (.raw "boom"))).msg :=
  (endpoint_error_conversion envCancelFail).2.2.2.2.1 "o1" "BTCUSDT"
    (PyErr.exception (.wrap "Failed to cancel order: " (.raw "boom"))) (by decide)

/-- Witness for C10: quantity 1 against a minimum of 10. -/
theorem place_order_min_qty_guard_witness :
    place_order envMinQty "BTCUSDT" "Buy" "Market" 1 1 none false =
      (.error (.valueError (.minQty 1 ((some (10 : ℚ)).getD 0) "BTCUSDT")),
       [.getInstrumentsInfo "linear" "BTCUSDT"]) :=
  place_order_min_qty_guard envMinQty "BTCUSDT" "Buy" "Market" 1 1 none false
    ⟨some 10⟩ [] rfl (by norm_num)

end Bybit
